import Mathlib

/-!
Verification of the TimberPy grid-map pipeline (src/app.py).

The source is shallowly embedded: spreadsheet cells are exact rationals or
text, pandas data frames are column lists plus association-list rows,
numpy grids are functions on 0-based indices, Python exceptions are an
explicit error type threaded through Except, and float arithmetic is
modelled exactly over ℚ and ℝ (math.pi becomes Real.pi).
-/

namespace TimberPy

/-- A spreadsheet cell value: an exact number or (non-numeric) text.
Numeric strings that pd.to_numeric would coerce are not modelled; a
text cell stands for genuinely non-numeric content. -/
inductive Value where
  | num (q : ℚ)
  | text (s : String)
deriving DecidableEq

/-- The Python exceptions the modelled code can raise. -/
inductive PyErr where
  | valueError (msg : String)
  | keyError (key : String)
  | typeError (msg : String)
  | zeroDivisionError
deriving DecidableEq

/-- One spreadsheet row: an association list from column names to cells,
as a pandas Series produced by df.iterrows. -/
abbrev Row := List (String × Value)

/-- A pandas DataFrame: its column schema and its rows. -/
structure DataFrame where
  columns : List String
  rows : List Row
deriving DecidableEq

/-- pandas invariant: every row is keyed exactly by the frame columns. -/
def DataFrame.WF (df : DataFrame) : Prop :=
  ∀ r ∈ df.rows, r.map Prod.fst = df.columns

/-- Series component access row[c]; a missing key raises KeyError. -/
def getCell (r : Row) (c : String) : Except PyErr Value :=
  match r.lookup c with
  | some v => .ok v
  | none => .error (.keyError c)

/-- Access of a cell used in arithmetic: a text cell would make the
Python arithmetic raise TypeError. -/
def getNum (r : Row) (c : String) : Except PyErr ℚ :=
  match r.lookup c with
  | some (.num q) => .ok q
  | some (.text _) => .error (.typeError c)
  | none => .error (.keyError c)

/-- str(value), as interpolated into the warning text. -/
def Value.pystr : Value → String
  | .num q => toString q
  | .text s => s

/-- Decimal value of a digit run: Python int applied to the matched
digit group (leading zeros allowed, so the value can be 0). -/
def digitsVal (ds : List Char) : ℕ :=
  ds.foldl (fun n c => 10 * n + (c.toNat - 48)) 0

/-- ord(L) - ord(A) + 1 for a column letter (app.py lines 50 and 52). -/
def letterVal (c : Char) : ℕ := c.toNat - 64

/-- parse_coordinates (app.py lines 40 to 54): prefix match of the
pattern one-or-two uppercase letters then one-or-more digits, with the
greedy two-letter alternative tried first and backtracking to one
letter, exactly as re.match does; on success returns
(int(digit run), column value), otherwise raises
ValueError "Invalid coordinate format: ...". -/
def parse_coordinates (s : String) : Except PyErr (ℕ × ℕ) :=
  match s.toList with
  | c0 :: c1 :: c2 :: rest =>
    if c0.isUpper && c1.isUpper && c2.isDigit then
      .ok (digitsVal ((c2 :: rest).takeWhile Char.isDigit),
           letterVal c0 * 26 + letterVal c1)
    else if c0.isUpper && c1.isDigit then
      .ok (digitsVal ((c1 :: c2 :: rest).takeWhile Char.isDigit),
           letterVal c0)
    else .error (.valueError ("Invalid coordinate format: " ++ s))
  | [c0, c1] =>
    if c0.isUpper && c1.isDigit then
      .ok (digitsVal [c1], letterVal c0)
    else .error (.valueError ("Invalid coordinate format: " ++ s))
  | _ => .error (.valueError ("Invalid coordinate format: " ++ s))

/-- The fixed required column set (app.py lines 11 and 12). -/
def required_columns : List String :=
  ["A/A", "DBH (cm)", "Tree height (meters)",
   "Form factor (0.4 to 0.6)", "Cordinates"]

/-- The series df[c]: cells of the named column, row by row. -/
def colVals (df : DataFrame) (c : String) : List Value :=
  df.rows.filterMap (fun r => r.lookup c)

/-- Whether pd.to_numeric with coerce yields a non-null value. -/
def isNumericVal (v : Value) : Bool :=
  match v with
  | .num _ => true
  | .text _ => false

/-- Cell-level test for the form-factor range check of app.py
lines 30 to 32. -/
def inFormFactorRange (v : Value) : Bool :=
  match v with
  | .num q => decide ((0.4 : ℚ) ≤ q ∧ q ≤ (0.6 : ℚ))
  | .text _ => false

/-- Cell-level test for the positivity checks of app.py
lines 34 and 37. -/
def isPositiveVal (v : Value) : Bool :=
  match v with
  | .num q => decide (0 < q)
  | .text _ => false

/-- validate_data (app.py lines 9 to 38): missing columns (all listed in
one message), then per-column numeric checks, then the form-factor
range and the positivity checks, each raising ValueError with the
source's message. -/
def validate_data (df : DataFrame) : Except PyErr Unit :=
  if required_columns.filter (fun c => !(df.columns.contains c)) ≠ [] then
    .error (.valueError ("Missing required columns: " ++ String.intercalate ", "
      (required_columns.filter (fun c => !(df.columns.contains c)))))
  else if ¬ (colVals df "DBH (cm)").all isNumericVal then
    .error (.valueError "DBH values must be numeric")
  else if ¬ (colVals df "Tree height (meters)").all isNumericVal then
    .error (.valueError "Tree height values must be numeric")
  else if ¬ (colVals df "Form factor (0.4 to 0.6)").all isNumericVal then
    .error (.valueError "Form factor values must be numeric")
  else if ¬ (colVals df "Form factor (0.4 to 0.6)").all inFormFactorRange then
    .error (.valueError "Form factor must be between 0.4 and 0.6")
  else if ¬ (colVals df "DBH (cm)").all isPositiveVal then
    .error (.valueError "DBH must be positive")
  else if ¬ (colVals df "Tree height (meters)").all isPositiveVal then
    .error (.valueError "Tree height must be positive")
  else .ok ()

/-- calculate_volume (app.py lines 56 to 60): convert cm to m, then
form_factor * ((pi/4) * diameter^2 * height). -/
noncomputable def calculate_volume (dbh height form_factor : ℚ) : ℝ :=
  let diameter : ℝ := (dbh : ℝ) / 100
  (form_factor : ℝ) * ((Real.pi / 4) * diameter ^ 2 * (height : ℝ))

/-- The loop state of app.py lines 77 to 98: the numpy arrays grid and
count_grid as functions on 0-based indices (first index the y
dimension, second the x dimension), plus the printed warnings in
order. -/
structure LoopState where
  grid : ℕ → ℕ → ℝ
  count_grid : ℕ → ℕ → ℕ
  warnings : List String

/-- np.zeros for both arrays, no warnings yet (lines 77 and 78). -/
noncomputable def initState : LoopState :=
  { grid := fun _ _ => 0, count_grid := fun _ _ => 0, warnings := [] }

/-- Lines 95 and 96: grid[y-1, x-1] += volume and
count_grid[y-1, x-1] += 1, every other entry of both arrays kept. -/
noncomputable def accumulate (grid : ℕ → ℕ → ℝ) (count_grid : ℕ → ℕ → ℕ)
    (y x : ℕ) (volume : ℝ) : (ℕ → ℕ → ℝ) × (ℕ → ℕ → ℕ) :=
  (fun i j => if i = y - 1 ∧ j = x - 1 then grid i j + volume else grid i j,
   fun i j => if i = y - 1 ∧ j = x - 1 then count_grid i j + 1 else count_grid i j)

/-- The body of the per-row try block (app.py lines 84 to 96): read and
parse the Cordinates cell, keep the row only when
1 <= x <= x_size and 1 <= y <= y_size, and then compute the volume and
accumulate it at grid[y-1, x-1]. A numeric coordinate cell makes
re.match raise TypeError. -/
noncomputable def tryBody (x_size y_size : ℕ) (st : LoopState) (r : Row) :
    Except PyErr LoopState :=
  match getCell r "Cordinates" with
  | .error e => .error e
  | .ok (.num _) => .error (.typeError "expected string or bytes-like object")
  | .ok (.text coordStr) =>
    match parse_coordinates coordStr with
    | .error e => .error e
    | .ok xy =>
      if 1 ≤ xy.1 ∧ xy.1 ≤ x_size ∧ 1 ≤ xy.2 ∧ xy.2 ≤ y_size then
        match getNum r "DBH (cm)" with
        | .error e => .error e
        | .ok dbh =>
          match getNum r "Tree height (meters)" with
          | .error e => .error e
          | .ok height =>
            match getNum r "Form factor (0.4 to 0.6)" with
            | .error e => .error e
            | .ok ff =>
              let gc := accumulate st.grid st.count_grid xy.2 xy.1
                (calculate_volume dbh height ff)
              .ok { st with grid := gc.1, count_grid := gc.2 }
      else .ok st

/-- One loop iteration (app.py lines 82 to 98): only ValueError is
caught, printing a warning that names row[A/A]; any other exception
propagates and aborts the run. -/
noncomputable def rowStep (x_size y_size : ℕ) (st : LoopState) (r : Row) :
    Except PyErr LoopState :=
  match tryBody x_size y_size st r with
  | .ok st2 => .ok st2
  | .error (.valueError msg) =>
    match getCell r "A/A" with
    | .ok ident =>
      .ok { st with warnings := st.warnings ++
        ["Warning: Skipping row " ++ ident.pystr ++ ": " ++ msg] }
    | .error e => .error e
  | .error e => .error e

/-- The whole processing loop over df.iterrows, from the zeroed state. -/
noncomputable def runLoop (x_size y_size : ℕ) (rows : List Row) :
    Except PyErr LoopState :=
  rows.foldlM (rowStep x_size y_size) initState

/-- The reduction pass (app.py lines 100 to 102): mask = count_grid > 0
and grid[mask] = grid[mask] / count_grid[mask]; entries outside the
mask keep their accumulated value. -/
noncomputable def reduceGrid (grid : ℕ → ℕ → ℝ) (count_grid : ℕ → ℕ → ℕ) :
    ℕ → ℕ → ℝ :=
  fun i j =>
    if 0 < count_grid i j then grid i j / (count_grid i j : ℝ) else grid i j

/-- One iteration of the summary loop (app.py lines 148 to 157):
recompute the volume, add it to the running total, then evaluate the
fields interpolated into the print, among them row[Coordinates],
spelled with the second o unlike the validated column Cordinates. -/
noncomputable def summaryStep (total : ℝ) (r : Row) : Except PyErr ℝ :=
  match getNum r "DBH (cm)" with
  | .error e => .error e
  | .ok dbh =>
    match getNum r "Tree height (meters)" with
    | .error e => .error e
    | .ok height =>
      match getNum r "Form factor (0.4 to 0.6)" with
      | .error e => .error e
      | .ok ff =>
        let total2 := total + calculate_volume dbh height ff
        match getCell r "A/A" with
        | .error e => .error e
        | .ok _ =>
          match getCell r "Coordinates" with
          | .error e => .error e
          | .ok _ =>
            match getCell r "DBH (cm)" with
            | .error e => .error e
            | .ok _ =>
              match getCell r "Tree height (meters)" with
              | .error e => .error e
              | .ok _ => .ok total2

/-- The summary pass of app.py lines 146 to 161, accumulating
total_volume from 0. -/
noncomputable def runSummary (rows : List Row) : Except PyErr ℝ :=
  rows.foldlM summaryStep (0 : ℝ)

/-- The observable outcome of create_grid_map: the reduced grid,
warnings and summary statistics with return value True, or the caught
exception with return value False. -/
inductive RunOutcome where
  | failure (e : PyErr)
  | success (reduced : ℕ → ℕ → ℝ) (warnings : List String)
      (total_volume : ℝ) (tree_count : ℕ) (average : ℝ)

/-- create_grid_map (app.py lines 62 to 167) with the out-of-scope file
and plotting I/O elided: validate, run the accumulation loop, reduce,
run the summary pass, and divide total by len(df) for the average; any
exception escaping these steps is caught at line 165 and the function
returns False. -/
noncomputable def create_grid_map (df : DataFrame) (x_size y_size : ℕ) :
    RunOutcome :=
  match validate_data df with
  | .error e => .failure e
  | .ok _ =>
    match runLoop x_size y_size df.rows with
    | .error e => .failure e
    | .ok st =>
      match runSummary df.rows with
      | .error e => .failure e
      | .ok total =>
        if df.rows.length = 0 then .failure .zeroDivisionError
        else
          .success (reduceGrid st.grid st.count_grid) st.warnings total
            df.rows.length (total / (df.rows.length : ℝ))

/-! ### Order-independence machinery for the accumulation loop -/

/-- Total extraction of a numeric cell (agrees with getNum whenever the
lookup yields a number). -/
def numOf (r : Row) (c : String) : ℚ :=
  match r.lookup c with
  | some (.num q) => q
  | _ => 0

/-- Where (if anywhere) a row lands on the grid, and with what volume:
none when the coordinate cell is absent, numeric or unparsable, or the
parsed point is out of bounds. -/
noncomputable def placeOf (x_size y_size : ℕ) (r : Row) :
    Option (ℕ × ℕ × ℝ) :=
  match r.lookup "Cordinates" with
  | some (.text s) =>
    match parse_coordinates s with
    | .ok xy =>
      if 1 ≤ xy.1 ∧ xy.1 ≤ x_size ∧ 1 ≤ xy.2 ∧ xy.2 ≤ y_size then
        some (xy.2, xy.1, calculate_volume (numOf r "DBH (cm)")
          (numOf r "Tree height (meters)") (numOf r "Form factor (0.4 to 0.6)"))
      else none
    | .error _ => none
  | _ => none

/-- The grid-and-count part of one loop iteration, as a pure fold step. -/
noncomputable def gcStep (x_size y_size : ℕ)
    (gc : (ℕ → ℕ → ℝ) × (ℕ → ℕ → ℕ)) (r : Row) :
    (ℕ → ℕ → ℝ) × (ℕ → ℕ → ℕ) :=
  match placeOf x_size y_size r with
  | some (y, x, v) => accumulate gc.1 gc.2 y x v
  | none => gc

/-- A row whose five required cells are present, the measurement cells
numeric: what batch validation guarantees for well-formed frames. -/
def ProcRow (r : Row) : Prop :=
  (∃ v, r.lookup "A/A" = some v) ∧
  (∃ q, r.lookup "DBH (cm)" = some (.num q)) ∧
  (∃ q, r.lookup "Tree height (meters)" = some (.num q)) ∧
  (∃ q, r.lookup "Form factor (0.4 to 0.6)" = some (.num q)) ∧
  (∃ v, r.lookup "Cordinates" = some v)


/-- The five messages validate_data can raise, each naming the offending
field, the missing-columns message listing every absent column. -/
def validationMessages (df : DataFrame) : List String :=
  ["Missing required columns: " ++ String.intercalate ", "
     (required_columns.filter (fun c => !(df.columns.contains c))),
   "DBH values must be numeric",
   "Tree height values must be numeric",
   "Form factor values must be numeric",
   "Form factor must be between 0.4 and 0.6",
   "DBH must be positive",
   "Tree height must be positive"]


/-- 0-based alphabet position of an uppercase letter (A is 0). -/
def letterPos (c : Char) : ℕ := c.toNat - 65

/-- Standard spreadsheet column numbering of a letter run (bijective
base 26, A=1 ... Z=26, AA=27). -/
def spreadsheetCol (cs : List Char) : ℕ :=
  cs.foldl (fun n c => 26 * n + (c.toNat - 64)) 0

/-- Modelled from the spec wording for the coordinate pattern: the label
begins with one or two uppercase letters immediately followed by a
digit (prefix match, later characters unconstrained). -/
def ClaimPattern (s : String) : Prop :=
  match s.toList with
  | c0 :: c1 :: rest =>
    (c0.isUpper = true ∧ c1.isDigit = true) ∨
    (c0.isUpper = true ∧ c1.isUpper = true ∧
      ∃ c2 t, rest = c2 :: t ∧ c2.isDigit = true)
  | _ => False

/-! ### Concrete rows and frames used in the closed theorems -/

/-- A fully valid row whose coordinate label is A5. -/
def rowC2 : Row :=
  [("A/A", .num 1), ("DBH (cm)", .num 30), ("Tree height (meters)", .num 10),
   ("Form factor (0.4 to 0.6)", .num (1/2)), ("Cordinates", .text "A5")]

/-- A batch with exactly the required columns and the single row rowC2. -/
def dfC2 : DataFrame := { columns := required_columns, rows := [rowC2] }

/-- A valid row whose label A35 has digit part 35: beyond y_size = 32
but within x_size = 39. -/
def rowA35 : Row :=
  [("A/A", .num 2), ("DBH (cm)", .num 30), ("Tree height (meters)", .num 10),
   ("Form factor (0.4 to 0.6)", .num (1/2)), ("Cordinates", .text "A35")]

/-- A valid row whose label B3 parses to digits 3, letter value 2. -/
def rowB3 : Row :=
  [("A/A", .num 3), ("DBH (cm)", .num 30), ("Tree height (meters)", .num 10),
   ("Form factor (0.4 to 0.6)", .num (1/2)), ("Cordinates", .text "B3")]

/-- A valid row whose label A99 parses but lies outside a 39-wide grid. -/
def rowA99 : Row :=
  [("A/A", .num 7), ("DBH (cm)", .num 30), ("Tree height (meters)", .num 10),
   ("Form factor (0.4 to 0.6)", .num (1/2)), ("Cordinates", .text "A99")]

/-- A row violating the form-factor range (0.65). -/
def rowBad : Row :=
  [("A/A", .num 1), ("DBH (cm)", .num 30), ("Tree height (meters)", .num 10),
   ("Form factor (0.4 to 0.6)", .num (13/20)), ("Cordinates", .text "A5")]

/-- A batch whose only row has form factor 0.65. -/
def dfBad : DataFrame := { columns := required_columns, rows := [rowBad] }

/-- Second valid row (label B3) for the permutation witness. -/
def rowW2 : Row :=
  [("A/A", .num 2), ("DBH (cm)", .num 40), ("Tree height (meters)", .num 12),
   ("Form factor (0.4 to 0.6)", .num (1/2)), ("Cordinates", .text "B3")]

/-- A two-row valid batch for the permutation witness. -/
def dfW : DataFrame := { columns := required_columns, rows := [rowC2, rowW2] }

/-! ### Helper lemmas about the per-row step -/

theorem parse_error_shape (s : String) (e : PyErr)
    (h : parse_coordinates s = .error e) :
    e = .valueError ("Invalid coordinate format: " ++ s) := by
  unfold parse_coordinates at h
  split at h
  all_goals try split_ifs at h
  all_goals simp_all

theorem rowStep_inbounds (x_size y_size : ℕ) (st : LoopState) (r : Row)
    (s : String) (row col : ℕ) (dbh height ff : ℚ)
    (hc : r.lookup "Cordinates" = some (.text s))
    (hp : parse_coordinates s = .ok (row, col))
    (hd : r.lookup "DBH (cm)" = some (.num dbh))
    (hh : r.lookup "Tree height (meters)" = some (.num height))
    (hf : r.lookup "Form factor (0.4 to 0.6)" = some (.num ff))
    (hb : 1 ≤ row ∧ row ≤ x_size ∧ 1 ≤ col ∧ col ≤ y_size) :
    rowStep x_size y_size st r = .ok { st with
      grid := (accumulate st.grid st.count_grid col row
        (calculate_volume dbh height ff)).1,
      count_grid := (accumulate st.grid st.count_grid col row
        (calculate_volume dbh height ff)).2 } := by
  simp only [rowStep, tryBody, getCell, getNum, hc, hp, hd, hh, hf]
  simp [hb]

theorem rowStep_oob (x_size y_size : ℕ) (st : LoopState) (r : Row)
    (s : String) (row col : ℕ)
    (hc : r.lookup "Cordinates" = some (.text s))
    (hp : parse_coordinates s = .ok (row, col))
    (hb : ¬ (1 ≤ row ∧ row ≤ x_size ∧ 1 ≤ col ∧ col ≤ y_size)) :
    rowStep x_size y_size st r = .ok st := by
  simp only [rowStep, tryBody, getCell, hc, hp]
  simp [hb]

theorem rowStep_parsefail (x_size y_size : ℕ) (st : LoopState) (r : Row)
    (s : String) (msg : String) (ident : Value)
    (hc : r.lookup "Cordinates" = some (.text s))
    (hp : parse_coordinates s = .error (.valueError msg))
    (hid : r.lookup "A/A" = some ident) :
    rowStep x_size y_size st r = .ok { st with warnings := st.warnings ++
      ["Warning: Skipping row " ++ ident.pystr ++ ": " ++ msg] } := by
  simp only [rowStep, tryBody, getCell, hc, hp, hid]

theorem rowStep_numcoord (x_size y_size : ℕ) (st : LoopState) (r : Row)
    (q : ℚ) (hc : r.lookup "Cordinates" = some (.num q)) :
    rowStep x_size y_size st r =
      .error (.typeError "expected string or bytes-like object") := by
  simp only [rowStep, tryBody, getCell, hc]

/-! ### Cells never touched by the accumulation stay at zero -/

theorem rowStep_ok_cases (x_size y_size : ℕ) (st st2 : LoopState) (r : Row)
    (h : rowStep x_size y_size st r = .ok st2) :
    (st2.grid = st.grid ∧ st2.count_grid = st.count_grid) ∨
    ∃ y x v, st2.grid = (accumulate st.grid st.count_grid y x v).1 ∧
      st2.count_grid = (accumulate st.grid st.count_grid y x v).2 := by
  unfold rowStep tryBody at h
  split at h
  case h_1 st3 heq =>
    split at heq
    · simp_all
    · simp_all
    · split at heq
      · simp_all
      · split at heq
        · split at heq
          · simp_all
          · split at heq
            · simp_all
            · split at heq
              · simp_all
              · refine Or.inr ?_
                simp only [Except.ok.injEq] at heq h
                subst heq
                subst h
                exact ⟨_, _, _, rfl, rfl⟩
        · simp only [Except.ok.injEq] at heq h
          subst heq
          subst h
          exact Or.inl ⟨rfl, rfl⟩
  case h_2 msg heq =>
    split at h
    · simp only [Except.ok.injEq] at h
      subst h
      exact Or.inl ⟨rfl, rfl⟩
    · simp_all
  case h_3 => simp_all

theorem zero_inv_step (x_size y_size : ℕ) (st st2 : LoopState) (r : Row)
    (h : rowStep x_size y_size st r = .ok st2)
    (hinv : ∀ i j, st.count_grid i j = 0 → st.grid i j = 0) :
    ∀ i j, st2.count_grid i j = 0 → st2.grid i j = 0 := by
  rcases rowStep_ok_cases x_size y_size st st2 r h with ⟨hg, hc⟩ | ⟨y, x, v, hg, hc⟩
  · rw [hg, hc]; exact hinv
  · intro i j hcnt
    rw [hc] at hcnt
    rw [hg]
    simp only [accumulate] at hcnt ⊢
    by_cases hij : i = y - 1 ∧ j = x - 1
    · simp [hij] at hcnt
    · simp [hij] at hcnt ⊢
      exact hinv i j hcnt

theorem foldl_zero_inv (x_size y_size : ℕ) :
    ∀ (rows : List Row) (st0 st : LoopState),
      List.foldlM (rowStep x_size y_size) st0 rows = .ok st →
      (∀ i j, st0.count_grid i j = 0 → st0.grid i j = 0) →
      ∀ i j, st.count_grid i j = 0 → st.grid i j = 0 := by
  intro rows
  induction rows with
  | nil =>
    intro st0 st h hinv
    simp only [List.foldlM_nil, pure, Except.pure, Except.ok.injEq] at h
    rw [← h]
    exact hinv
  | cons r t ih =>
    intro st0 st h hinv
    rw [List.foldlM_cons] at h
    cases hstep : rowStep x_size y_size st0 r with
    | error e =>
      rw [hstep] at h
      simp [Bind.bind, Except.bind] at h
    | ok st1 =>
      rw [hstep] at h
      simp only [Bind.bind, Except.bind] at h
      exact ih st1 st h (zero_inv_step x_size y_size st0 st1 r hstep hinv)

theorem runLoop_zero_inv (x_size y_size : ℕ) (rows : List Row)
    (st : LoopState) (h : runLoop x_size y_size rows = .ok st) :
    ∀ i j, st.count_grid i j = 0 → st.grid i j = 0 := by
  refine foldl_zero_inv x_size y_size rows initState st h ?_
  intro i j _
  rfl

/-! ### Characterization of validate_data -/

theorem validate_ok_iff (df : DataFrame) :
    validate_data df = .ok () ↔
      (required_columns.filter (fun c => !(df.columns.contains c)) = [] ∧
       (colVals df "DBH (cm)").all isNumericVal ∧
       (colVals df "Tree height (meters)").all isNumericVal ∧
       (colVals df "Form factor (0.4 to 0.6)").all isNumericVal ∧
       (colVals df "Form factor (0.4 to 0.6)").all inFormFactorRange ∧
       (colVals df "DBH (cm)").all isPositiveVal ∧
       (colVals df "Tree height (meters)").all isPositiveVal) := by
  unfold validate_data
  split_ifs with h1 h2 h3 h4 h5 h6 h7 <;> simp_all

theorem validate_fail_total (df : DataFrame)
    (h : validate_data df ≠ .ok ()) :
    ∃ msg, validate_data df = .error (.valueError msg) ∧
      msg ∈ validationMessages df ∧
      (required_columns.filter (fun c => !(df.columns.contains c)) ≠ [] →
        msg = "Missing required columns: " ++ String.intercalate ", "
          (required_columns.filter (fun c => !(df.columns.contains c)))) := by
  unfold validate_data at h ⊢
  split_ifs at h ⊢ with h1 h2 h3 h4 h5 h6 h7 <;>
    simp_all [validationMessages]

theorem accumulate_comm (g : ℕ → ℕ → ℝ) (c : ℕ → ℕ → ℕ)
    (y1 x1 y2 x2 : ℕ) (v1 v2 : ℝ) :
    accumulate (accumulate g c y1 x1 v1).1 (accumulate g c y1 x1 v1).2 y2 x2 v2
      = accumulate (accumulate g c y2 x2 v2).1 (accumulate g c y2 x2 v2).2 y1 x1 v1 := by
  unfold accumulate
  refine Prod.ext ?_ ?_ <;> funext i j <;> dsimp only <;>
    split_ifs <;> ring

theorem gcStep_comm (x_size y_size : ℕ)
    (gc : (ℕ → ℕ → ℝ) × (ℕ → ℕ → ℕ)) (r1 r2 : Row) :
    gcStep x_size y_size (gcStep x_size y_size gc r1) r2
      = gcStep x_size y_size (gcStep x_size y_size gc r2) r1 := by
  unfold gcStep
  cases h1 : placeOf x_size y_size r1 with
  | none => cases h2 : placeOf x_size y_size r2 <;> simp
  | some p1 =>
    cases h2 : placeOf x_size y_size r2 with
    | none => simp
    | some p2 =>
      obtain ⟨y1, x1, v1⟩ := p1
      obtain ⟨y2, x2, v2⟩ := p2
      exact accumulate_comm gc.1 gc.2 y1 x1 y2 x2 v1 v2

/-- Folding a right-commutative step is invariant under permutation. -/
theorem foldl_eq_of_perm {α β : Type} (f : β → α → β)
    (H : ∀ b a1 a2, f (f b a1) a2 = f (f b a2) a1)
    {l1 l2 : List α} (p : l1.Perm l2) :
    ∀ b, l1.foldl f b = l2.foldl f b := by
  induction p with
  | nil => intro b; rfl
  | cons x _ ih => intro b; simp only [List.foldl_cons]; exact ih (f b x)
  | swap x y l => intro b; simp only [List.foldl_cons]; rw [H]
  | trans _ _ ih1 ih2 => intro b; rw [ih1 b, ih2 b]

/-- On a processable row with a textual coordinate cell, one loop
iteration succeeds and changes grid and count exactly by gcStep. -/
theorem rowStep_gc (x_size y_size : ℕ) (st : LoopState) (r : Row)
    (hproc : ProcRow r) (s : String)
    (htext : r.lookup "Cordinates" = some (.text s)) :
    ∃ st2, rowStep x_size y_size st r = .ok st2 ∧
      (st2.grid, st2.count_grid) =
        gcStep x_size y_size (st.grid, st.count_grid) r := by
  obtain ⟨⟨ident, hid⟩, ⟨dbh, hd⟩, ⟨height, hh⟩, ⟨ff, hf⟩, -⟩ := hproc
  cases hp : parse_coordinates s with
  | error e =>
    obtain rfl := parse_error_shape s e hp
    refine ⟨_, rowStep_parsefail x_size y_size st r s _ ident htext hp hid, ?_⟩
    simp [gcStep, placeOf, htext, hp]
  | ok xy =>
    obtain ⟨row, col⟩ := xy
    by_cases hb : 1 ≤ row ∧ row ≤ x_size ∧ 1 ≤ col ∧ col ≤ y_size
    · refine ⟨_, rowStep_inbounds x_size y_size st r s row col dbh height ff
        htext hp hd hh hf hb, ?_⟩
      simp [gcStep, placeOf, htext, hp, hb, numOf, hd, hh, hf]
    · refine ⟨_, rowStep_oob x_size y_size st r s row col htext hp hb, ?_⟩
      simp [gcStep, placeOf, htext, hp, hb]

/-- If every row of the batch is processable with textual coordinates,
the monadic loop succeeds and its grid-and-count state is the pure
fold of gcStep. -/
theorem foldlM_all_text (x_size y_size : ℕ) :
    ∀ (l : List Row) (st : LoopState),
      (∀ r ∈ l, ProcRow r) →
      (∀ r ∈ l, ∃ s, r.lookup "Cordinates" = some (.text s)) →
      ∃ st2, List.foldlM (rowStep x_size y_size) st l = .ok st2 ∧
        (st2.grid, st2.count_grid) =
          l.foldl (gcStep x_size y_size) (st.grid, st.count_grid) := by
  intro l
  induction l with
  | nil =>
    intro st _ _
    exact ⟨st, rfl, rfl⟩
  | cons r t ih =>
    intro st hproc htext
    obtain ⟨s, hs⟩ := htext r (by simp)
    obtain ⟨st1, hst1, hgc1⟩ :=
      rowStep_gc x_size y_size st r (hproc r (by simp)) s hs
    obtain ⟨st2, hst2, hgc2⟩ := ih st1
      (fun r2 h2 => hproc r2 (by simp [h2]))
      (fun r2 h2 => htext r2 (by simp [h2]))
    refine ⟨st2, ?_, ?_⟩
    · rw [List.foldlM_cons, hst1]
      simpa [Bind.bind, Except.bind] using hst2
    · rw [hgc2, List.foldl_cons, ← hgc1]

/-- If some row of the batch has a numeric coordinate cell, the loop
aborts with the TypeError of re.match, whatever the order. -/
theorem foldlM_some_num (x_size y_size : ℕ) :
    ∀ (l : List Row) (st : LoopState),
      (∀ r ∈ l, ProcRow r) →
      (∃ r ∈ l, ∃ q, r.lookup "Cordinates" = some (.num q)) →
      List.foldlM (rowStep x_size y_size) st l =
        .error (.typeError "expected string or bytes-like object") := by
  intro l
  induction l with
  | nil =>
    intro st _ hbad
    simp at hbad
  | cons r t ih =>
    intro st hproc hbad
    cases hr : r.lookup "Cordinates" with
    | none =>
      obtain ⟨-, -, -, -, v, hv⟩ := hproc r (by simp)
      rw [hv] at hr
      cases hr
    | some v =>
      cases v with
      | num q =>
        rw [List.foldlM_cons, rowStep_numcoord x_size y_size st r q hr]
        rfl
      | text s =>
        obtain ⟨st1, hst1, -⟩ :=
          rowStep_gc x_size y_size st r (hproc r (by simp)) s hr
        rw [List.foldlM_cons, hst1]
        obtain ⟨rbad, hmem, q, hq⟩ := hbad
        rcases List.mem_cons.mp hmem with rfl | hmem2
        · rw [hr] at hq
          cases hq
        · have := ih st1 (fun r2 h2 => hproc r2 (by simp [h2]))
            ⟨rbad, hmem2, q, hq⟩
          simpa [Bind.bind, Except.bind] using this

/-! ### What batch validation guarantees about each row -/

theorem lookup_of_mem_keys (r : Row) (c : String)
    (h : c ∈ r.map Prod.fst) : ∃ v, r.lookup c = some v := by
  induction r with
  | nil => simp at h
  | cons p t ih =>
    by_cases hc : c = p.1
    · exact ⟨p.2, by simp [List.lookup, hc]⟩
    · have hmem : c ∈ t.map Prod.fst := by
        simp only [List.map_cons, List.mem_cons] at h
        exact h.resolve_left hc
      obtain ⟨v, hv⟩ := ih hmem
      have hbeq : (c == p.1) = false := beq_eq_false_iff_ne.mpr hc
      exact ⟨v, by simp [List.lookup, hbeq, hv]⟩

theorem mem_colVals (df : DataFrame) (r : Row) (c : String) (v : Value)
    (hr : r ∈ df.rows) (hv : r.lookup c = some v) : v ∈ colVals df c := by
  unfold colVals
  exact List.mem_filterMap.mpr ⟨r, hr, hv⟩

theorem validated_lookup (df : DataFrame) (hwf : df.WF)
    (hok : validate_data df = .ok ()) (r : Row) (hr : r ∈ df.rows)
    (c : String) (hc : c ∈ required_columns) : ∃ v, r.lookup c = some v := by
  have hmiss := (validate_ok_iff df).mp hok |>.1
  have hcol : c ∈ df.columns := by
    by_contra hnc
    have : c ∈ required_columns.filter (fun c2 => !(df.columns.contains c2)) :=
      List.mem_filter.mpr ⟨hc, by simpa using hnc⟩
    rw [hmiss] at this
    simp at this
  exact lookup_of_mem_keys r c (by rw [hwf r hr]; exact hcol)

theorem validated_num (df : DataFrame) (hwf : df.WF)
    (hok : validate_data df = .ok ()) (r : Row) (hr : r ∈ df.rows)
    (c : String) (hc : c ∈ required_columns)
    (hall : (colVals df c).all isNumericVal) :
    ∃ q, r.lookup c = some (.num q) := by
  obtain ⟨v, hv⟩ := validated_lookup df hwf hok r hr c hc
  have hmem := mem_colVals df r c v hr hv
  have := List.all_eq_true.mp hall v hmem
  cases v with
  | num q => exact ⟨q, hv⟩
  | text s => simp [isNumericVal] at this

/-- On a well-formed frame, passing batch validation makes every row
processable by the loop. -/
theorem validated_proc (df : DataFrame) (hwf : df.WF)
    (hok : validate_data df = .ok ()) :
    ∀ r ∈ df.rows, ProcRow r := by
  intro r hr
  have hc := (validate_ok_iff df).mp hok
  refine ⟨validated_lookup df hwf hok r hr "A/A" (by simp [required_columns]),
    validated_num df hwf hok r hr "DBH (cm)"
      (by simp [required_columns]) hc.2.1,
    validated_num df hwf hok r hr "Tree height (meters)"
      (by simp [required_columns]) hc.2.2.1,
    validated_num df hwf hok r hr "Form factor (0.4 to 0.6)"
      (by simp [required_columns]) hc.2.2.2.1,
    validated_lookup df hwf hok r hr "Cordinates" (by simp [required_columns])⟩

/-! ### Character and digit-run lemmas for the parser -/

theorem string_toList_mk (l : List Char) : (String.mk l).toList = l := rfl

theorem digit_not_upper (c : Char) (h : c.isDigit = true) :
    c.isUpper = false := by
  cases hu : c.isUpper with
  | false => rfl
  | true =>
    have h1 : 48 ≤ c.toNat ∧ c.toNat ≤ 57 := by simpa [Char.isDigit] using h
    have h2 : 65 ≤ c.toNat ∧ c.toNat ≤ 90 := by simpa [Char.isUpper] using hu
    omega

theorem takeWhile_digit_run (ds rest : List Char)
    (hdig : ∀ c ∈ ds, c.isDigit = true)
    (hrest : ∀ c2, rest.head? = some c2 → c2.isDigit = false) :
    (ds ++ rest).takeWhile Char.isDigit = ds := by
  induction ds with
  | nil =>
    cases rest with
    | nil => rfl
    | cons c t => simp [List.takeWhile_cons, hrest c rfl]
  | cons c t ih =>
    simp [List.takeWhile_cons, hdig c (by simp),
      ih (fun c2 h2 => hdig c2 (by simp [h2]))]

/-! ### Claim theorems -/

/-- C1, counterexample: the claim predicts that a record is placed only
when its digit-derived row is at most y_size; but the label A35
(row 35, column 1) on the default 39 by 32 grid is out of the claimed
bound 32, and the loop still places it, with count 1 at first index 0
(the letter part) and second index 34 (the digit part), not at the
claimed cell with first index 34. -/
theorem c1_counterexample :
    parse_coordinates "A35" = .ok (35, 1) ∧ ¬ (35 ≤ 32) ∧
    (runLoop 39 32 [rowA35]).map (fun st => st.count_grid 0 34) = .ok 1 ∧
    (runLoop 39 32 [rowA35]).map (fun st => st.count_grid 34 0) = .ok 0 :=
  ⟨rfl, by decide, rfl, rfl⟩

/-- C1, amended: for every record whose coordinate label parses to
(row, col), row from the digit portion and col from the letter portion,
the record is placed on the grid if and only if 1 <= row <= x_size and
1 <= col <= y_size, and when placed it accumulates its volume into (and
increments the count of) the 0-based cell [col-1][row-1]: the
digit-derived row is checked against x_size and indexes the second grid
dimension. -/
theorem c1_amended (x_size y_size : ℕ) (st : LoopState) (r : Row)
    (s : String) (row col : ℕ) (dbh height ff : ℚ)
    (hc : r.lookup "Cordinates" = some (.text s))
    (hp : parse_coordinates s = .ok (row, col))
    (hd : r.lookup "DBH (cm)" = some (.num dbh))
    (hh : r.lookup "Tree height (meters)" = some (.num height))
    (hf : r.lookup "Form factor (0.4 to 0.6)" = some (.num ff)) :
    (1 ≤ row ∧ row ≤ x_size ∧ 1 ≤ col ∧ col ≤ y_size →
      rowStep x_size y_size st r = .ok { st with
        grid := fun i j => if i = col - 1 ∧ j = row - 1
          then st.grid i j + calculate_volume dbh height ff else st.grid i j,
        count_grid := fun i j => if i = col - 1 ∧ j = row - 1
          then st.count_grid i j + 1 else st.count_grid i j }) ∧
    (¬ (1 ≤ row ∧ row ≤ x_size ∧ 1 ≤ col ∧ col ≤ y_size) →
      rowStep x_size y_size st r = .ok st) :=
  ⟨fun hb => rowStep_inbounds x_size y_size st r s row col dbh height ff
      hc hp hd hh hf hb,
   fun hb => rowStep_oob x_size y_size st r s row col hc hp hb⟩

/-- C1, witness: the record with label B3 (row 3, col 2) on the default
grid is placed at 0-based cell [1][2]. -/
theorem c1_amended_witness :
    rowStep 39 32 initState rowB3 = .ok { initState with
      grid := fun i j => if i = 1 ∧ j = 2
        then initState.grid i j + calculate_volume 30 10 (1/2)
        else initState.grid i j,
      count_grid := fun i j => if i = 1 ∧ j = 2
        then initState.count_grid i j + 1 else initState.count_grid i j } :=
  (c1_amended 39 32 initState rowB3 "B3" 3 2 30 10 (1/2)
    rfl rfl rfl rfl rfl).1 (by decide)

/-- C2: the claim is right about the intent, but the code has a slip:
the summary loop at app.py line 155 reads row[Coordinates] while
validation and processing use the misspelled column name Cordinates, so
on a batch that passes validation (and thus has no Coordinates column)
the print raises KeyError, the top-level handler catches it, and
create_grid_map returns False instead of succeeding with the summary
statistics. -/
theorem c2_keyerror :
    DataFrame.WF dfC2 ∧ validate_data dfC2 = .ok () ∧
    create_grid_map dfC2 39 32 = .failure (.keyError "Coordinates") := by
  have hval : validate_data dfC2 = .ok () := by
    simp [validate_data, colVals, rowC2, dfC2, required_columns, isNumericVal,
      inFormFactorRange, isPositiveVal, List.lookup]
    norm_num
  refine ⟨?_, hval, ?_⟩
  · intro r hr
    simp only [dfC2, List.mem_singleton] at hr
    subst hr
    rfl
  · rw [create_grid_map, hval]
    rfl

/-- C7, counterexample: the claim says a parsed but out-of-bounds record
is skipped with a warning naming its identifier; the label A99 parses
to (99, 1), 99 exceeds x_size = 39, the record is skipped, but the
warning list stays empty: the skip is silent. -/
theorem c7_counterexample :
    parse_coordinates "A99" = .ok (99, 1) ∧ ¬ (99 ≤ 39) ∧
    (runLoop 39 32 [rowA99]).map (fun st => st.warnings) = .ok [] ∧
    (runLoop 39 32 [rowA99]).map (fun st => st.count_grid 0 98) = .ok 0 :=
  ⟨rfl, by decide, rfl, rfl⟩

/-- C7, amended: a record whose coordinate label parses successfully but
falls outside the grid bounds is skipped for grid placement silently
(no warning is logged, the whole loop state is unchanged) and the run
is not aborted. -/
theorem c7_amended (x_size y_size : ℕ) (st : LoopState) (r : Row)
    (s : String) (row col : ℕ)
    (hc : r.lookup "Cordinates" = some (.text s))
    (hp : parse_coordinates s = .ok (row, col))
    (hoob : ¬ (1 ≤ row ∧ row ≤ x_size ∧ 1 ≤ col ∧ col ≤ y_size)) :
    rowStep x_size y_size st r = .ok st :=
  rowStep_oob x_size y_size st r s row col hc hp hoob

/-- C7, witness: the out-of-bounds record A99 leaves the initial state
untouched and the iteration succeeds. -/
theorem c7_amended_witness :
    rowStep 39 32 initState rowA99 = .ok initState :=
  c7_amended 39 32 initState rowA99 "A99" 99 1 rfl rfl (by decide)

/-- C10: one in-bounds accumulation step changes exactly one cell: the
volume sum of the targeted cell grows by the record volume, its count
by one, and every other cell of both arrays is unchanged. -/
theorem c10_frame (grid : ℕ → ℕ → ℝ) (count_grid : ℕ → ℕ → ℕ)
    (y x : ℕ) (v : ℝ) :
    (accumulate grid count_grid y x v).1 (y - 1) (x - 1)
        = grid (y - 1) (x - 1) + v ∧
    (accumulate grid count_grid y x v).2 (y - 1) (x - 1)
        = count_grid (y - 1) (x - 1) + 1 ∧
    ∀ i j, ¬ (i = y - 1 ∧ j = x - 1) →
      (accumulate grid count_grid y x v).1 i j = grid i j ∧
      (accumulate grid count_grid y x v).2 i j = count_grid i j := by
  refine ⟨by simp [accumulate], by simp [accumulate], ?_⟩
  intro i j h
  simp [accumulate, h]

/-- C10, witness: accumulating 5 at cell (2,3) leaves cell (0,0) of both
arrays untouched. -/
theorem c10_frame_witness :
    (accumulate (fun _ _ => (0 : ℝ)) (fun _ _ => 0) 2 3 5).1 0 0 = 0 ∧
    (accumulate (fun _ _ => (0 : ℝ)) (fun _ _ => 0) 2 3 5).2 0 0 = 0 := by
  have h := (c10_frame (fun _ _ => (0 : ℝ)) (fun _ _ => 0) 2 3 5).2.2 0 0
    (by decide)
  exact ⟨h.1, h.2⟩

theorem volume_30_10_half : calculate_volume 30 10 (1/2) = 0.1125 * Real.pi := by
  unfold calculate_volume
  push_cast
  ring

/-- C5, counterexample: calculate_volume(30, 10, 0.5) equals
0.1125 * pi, roughly 0.3534292, which is not within 1e-6 of 0.3534 as
the claim asserts (the distance is about 2.9e-5). -/
theorem c5_counterexample :
    ¬ (|calculate_volume 30 10 (1/2) - 0.3534| ≤ 1e-6) := by
  have hpi := Real.pi_gt_d6
  rw [volume_30_10_half]
  intro h
  rw [abs_le] at h
  nlinarith [h.2]

/-- C5, amended: for positive inputs with form factor in the valid
range, calculate_volume is exactly
form_factor * (pi/4) * (dbh/100)^2 * height (a pure function of its
arguments), and at (30, 10, 0.5) the value is within 1e-4 of 0.3534. -/
theorem c5_amended (dbh height ff : ℚ) (_hd : 0 < dbh) (_hh : 0 < height)
    (_hf1 : (0.4 : ℚ) ≤ ff) (_hf2 : ff ≤ (0.6 : ℚ)) :
    calculate_volume dbh height ff =
      (ff : ℝ) * (Real.pi / 4) * ((dbh : ℝ) / 100) ^ 2 * (height : ℝ) ∧
    |calculate_volume 30 10 (1/2) - 0.3534| ≤ 1e-4 := by
  constructor
  · unfold calculate_volume
    ring
  · have hpi1 := Real.pi_gt_d6
    have hpi2 := Real.pi_lt_d6
    rw [volume_30_10_half, abs_le]
    constructor <;> nlinarith

/-- C5, witness: the amended statement at dbh 30 cm, height 10 m, form
factor one half. -/
theorem c5_amended_witness :
    calculate_volume 30 10 (1/2) =
      ((1/2 : ℚ) : ℝ) * (Real.pi / 4) * (((30 : ℚ) : ℝ) / 100) ^ 2
        * ((10 : ℚ) : ℝ) ∧
    |calculate_volume 30 10 (1/2) - 0.3534| ≤ 1e-4 :=
  c5_amended 30 10 (1/2) (by norm_num) (by norm_num) (by norm_num)
    (by norm_num)

/-- C3, counterexample: the claim computes the two-letter column with
1-based positions, predicting parse of AA1 gives column
(1+1)*26+(1+1) = 54; the code uses ord differences, so AA1 parses to
row 1, column 1*26+1 = 27, not 54. -/
theorem c3_counterexample :
    parse_coordinates "AA1" = .ok (1, 27) ∧
    ((1 : ℕ), (27 : ℕ)) ≠ ((1 : ℕ), (54 : ℕ)) :=
  ⟨rfl, by decide⟩

/-- C3, amended: a two-letter label L1 L2 followed by a digit run maps
to column (position(L1)+1) * 26 + (position(L2)+1) with 0-based
positions (A is position 0), which coincides with standard spreadsheet
base-26 numbering; in particular parse of AA1 gives row 1 and
column 27. -/
theorem c3_amended (c0 c1 : Char) (ds rest : List Char)
    (h0 : c0.isUpper = true) (h1 : c1.isUpper = true)
    (hne : ds ≠ []) (hdig : ∀ c ∈ ds, c.isDigit = true)
    (hrest : ∀ c2, rest.head? = some c2 → c2.isDigit = false) :
    parse_coordinates (String.mk (c0 :: c1 :: (ds ++ rest))) =
      .ok (digitsVal ds, (letterPos c0 + 1) * 26 + (letterPos c1 + 1)) ∧
    (letterPos c0 + 1) * 26 + (letterPos c1 + 1) = spreadsheetCol [c0, c1] ∧
    parse_coordinates "AA1" = .ok (1, 27) := by
  obtain ⟨d, ds2, rfl⟩ : ∃ d ds2, ds = d :: ds2 := by
    cases ds with
    | nil => exact absurd rfl hne
    | cons d ds2 => exact ⟨d, ds2, rfl⟩
  have hd : d.isDigit = true := hdig d (by simp)
  have hb0 : 65 ≤ c0.toNat ∧ c0.toNat ≤ 90 := by simpa [Char.isUpper] using h0
  have hb1 : 65 ≤ c1.toNat ∧ c1.toNat ≤ 90 := by simpa [Char.isUpper] using h1
  refine ⟨?_, ?_, rfl⟩
  · unfold parse_coordinates
    rw [string_toList_mk]
    simp only [List.cons_append, h0, h1, hd, Bool.and_self, if_true]
    rw [← List.cons_append, takeWhile_digit_run (d :: ds2) rest hdig hrest]
    have hvp : letterVal c0 * 26 + letterVal c1
        = (letterPos c0 + 1) * 26 + (letterPos c1 + 1) := by
      unfold letterVal letterPos
      omega
    rw [hvp]
  · have h26 : spreadsheetCol [c0, c1]
        = 26 * (26 * 0 + (c0.toNat - 64)) + (c1.toNat - 64) := rfl
    rw [h26]
    unfold letterPos
    omega

/-- C3, witness: the amended statement at the label AA1. -/
theorem c3_amended_witness :
    parse_coordinates (String.mk ('A' :: 'A' :: (['1'] ++ []))) =
      .ok (digitsVal ['1'], (letterPos 'A' + 1) * 26 + (letterPos 'A' + 1)) ∧
    (letterPos 'A' + 1) * 26 + (letterPos 'A' + 1)
      = spreadsheetCol ['A', 'A'] ∧
    parse_coordinates "AA1" = .ok (1, 27) :=
  c3_amended 'A' 'A' ['1'] [] rfl rfl (by decide) (by decide) (by simp)

/-- C8, counterexample: the claim calls the parsed row a 1-based
positive integer, but the label A0 parses successfully to row 0. -/
theorem c8_counterexample :
    parse_coordinates "A0" = .ok (0, 1) ∧ ¬ 1 ≤ (0 : ℕ) :=
  ⟨rfl, by decide⟩

/-- C8, amended: parse succeeds exactly when the label begins with one
or two uppercase letters immediately followed by a digit (so 5A, the
empty string and lowercase a5 fail, whitespace is not stripped, and
characters after the digit run are tolerated because matching is
prefix-based); on success the digit run is parsed as the row number, a
nonnegative integer with no upper bound (zero is possible, e.g. A0). -/
theorem c8_amended (s : String) :
    ((∃ rc, parse_coordinates s = .ok rc) ↔ ClaimPattern s) ∧
    (∀ (c0 : Char) (ds rest : List Char),
      s = String.mk (c0 :: (ds ++ rest)) → c0.isUpper = true → ds ≠ [] →
      (∀ c ∈ ds, c.isDigit = true) →
      (∀ c2, rest.head? = some c2 → c2.isDigit = false) →
      parse_coordinates s = .ok (digitsVal ds, letterVal c0)) := by
  constructor
  · unfold parse_coordinates ClaimPattern
    cases hl : s.toList with
    | nil => simp
    | cons c0 t =>
      cases t with
      | nil => simp
      | cons c1 t2 =>
        cases t2 with
        | nil =>
          by_cases h0 : c0.isUpper <;> by_cases h1 : c1.isDigit <;>
            simp [h0, h1]
        | cons c2 rest =>
          by_cases h0 : c0.isUpper <;> by_cases h1u : c1.isUpper <;>
            by_cases h1d : c1.isDigit <;> by_cases h2 : c2.isDigit <;>
              simp [h0, h1u, h1d, h2]
  · rintro c0 ds rest rfl h0 hne hdig hrest
    obtain ⟨d, ds2, rfl⟩ : ∃ d ds2, ds = d :: ds2 := by
      cases ds with
      | nil => exact absurd rfl hne
      | cons d ds2 => exact ⟨d, ds2, rfl⟩
    have hd : d.isDigit = true := hdig d (by simp)
    cases hsplit : ds2 ++ rest with
    | nil =>
      obtain ⟨rfl, rfl⟩ : ds2 = [] ∧ rest = [] := by
        cases ds2 <;> simp_all
      unfold parse_coordinates
      rw [string_toList_mk]
      simp [h0, hd]
    | cons e rest2 =>
      unfold parse_coordinates
      rw [string_toList_mk]
      simp only [List.cons_append, hsplit]
      have hdu : d.isUpper = false := digit_not_upper d hd
      simp only [h0, hdu, hd, Bool.and_false, Bool.false_and, Bool.and_true,
        Bool.true_and, Bool.false_eq_true, if_false, if_true]
      rw [← hsplit, ← List.cons_append,
        takeWhile_digit_run (d :: ds2) rest hdig hrest]

/-- C8, witness: the pattern characterization at the claim's examples,
and prefix laxity at the label A5x!. -/
theorem c8_amended_witness :
    ((∃ rc, parse_coordinates "5A" = .ok rc) ↔ ClaimPattern "5A") ∧
    ((∃ rc, parse_coordinates "" = .ok rc) ↔ ClaimPattern "") ∧
    ((∃ rc, parse_coordinates "a5" = .ok rc) ↔ ClaimPattern "a5") ∧
    ((∃ rc, parse_coordinates " A5" = .ok rc) ↔ ClaimPattern " A5") ∧
    parse_coordinates (String.mk ('A' :: (['5'] ++ ['x', '!']))) =
      .ok (digitsVal ['5'], letterVal 'A') :=
  ⟨(c8_amended "5A").1, (c8_amended "").1, (c8_amended "a5").1,
   (c8_amended " A5").1,
   (c8_amended (String.mk ('A' :: (['5'] ++ ['x', '!'])))).2 'A' ['5']
     ['x', '!'] rfl rfl (by decide) (by decide) (by simp)⟩

/-- C4: the reduction pass sets every cell with count > 0 to the sum of
the contributed volumes divided by the count (their arithmetic mean),
leaves every cell with zero contributions of any loop run at the
zero-initialized value, and two trees landing in the same cell (3,4)
with volumes 1.0 and 3.0 reduce to cell value 2.0. -/
theorem c4_reduction :
    (∀ (grid : ℕ → ℕ → ℝ) (count_grid : ℕ → ℕ → ℕ) (i j : ℕ),
      0 < count_grid i j →
        reduceGrid grid count_grid i j = grid i j / (count_grid i j : ℝ)) ∧
    (∀ (x_size y_size : ℕ) (rows : List Row) (st : LoopState),
      runLoop x_size y_size rows = .ok st → ∀ i j, st.count_grid i j = 0 →
        reduceGrid st.grid st.count_grid i j = 0) ∧
    reduceGrid
      (accumulate (accumulate (fun _ _ => 0) (fun _ _ => 0) 3 4 1).1
        (accumulate (fun _ _ => 0) (fun _ _ => 0) 3 4 1).2 3 4 3).1
      (accumulate (accumulate (fun _ _ => 0) (fun _ _ => 0) 3 4 1).1
        (accumulate (fun _ _ => 0) (fun _ _ => 0) 3 4 1).2 3 4 3).2 2 3
      = 2 := by
  refine ⟨?_, ?_, ?_⟩
  · intro grid count_grid i j h
    simp [reduceGrid, h]
  · intro x_size y_size rows st h i j hcnt
    have hz := runLoop_zero_inv x_size y_size rows st h i j hcnt
    simp [reduceGrid, hcnt, hz]
  · norm_num [reduceGrid, accumulate]

/-- C4, witness: a cell with count 2 and sum 10 reduces to 10/2, and the
empty run leaves cell (0,0) at zero. -/
theorem c4_reduction_witness :
    reduceGrid (fun _ _ => (10 : ℝ)) (fun _ _ => 2) 5 7 = 10 / 2 ∧
    reduceGrid initState.grid initState.count_grid 0 0 = 0 := by
  constructor
  · have h := c4_reduction.1 (fun _ _ => (10 : ℝ)) (fun _ _ => 2) 5 7
      (by decide)
    simpa using h
  · exact c4_reduction.2.1 39 32 [] initState rfl 0 0 rfl

/-- C6: batch validation is all-or-nothing: if a required column is
absent, or a record's diameter, height or form factor cell is
non-numeric, or a form factor lies outside [0.4, 0.6], or a diameter or
height is nonpositive, then validate_data raises ValueError with one of
the field-naming messages (listing every missing column in the
missing-columns case), and create_grid_map fails with that very error,
so no per-row processing or grid accumulation happens. -/
theorem c6_validation (df : DataFrame) (x_size y_size : ℕ)
    (hbad :
      (∃ c ∈ required_columns, c ∉ df.columns) ∨
      (∃ r ∈ df.rows, ∃ c ∈ ["DBH (cm)", "Tree height (meters)",
        "Form factor (0.4 to 0.6)"], ∃ s, r.lookup c = some (.text s)) ∨
      (∃ r ∈ df.rows, ∃ q, r.lookup "Form factor (0.4 to 0.6)"
        = some (.num q) ∧ ¬ ((0.4 : ℚ) ≤ q ∧ q ≤ (0.6 : ℚ))) ∨
      (∃ r ∈ df.rows, ∃ q, (r.lookup "DBH (cm)" = some (.num q) ∨
        r.lookup "Tree height (meters)" = some (.num q)) ∧ q ≤ 0)) :
    ∃ msg, validate_data df = .error (.valueError msg) ∧
      msg ∈ validationMessages df ∧
      (required_columns.filter (fun c => !(df.columns.contains c)) ≠ [] →
        msg = "Missing required columns: " ++ String.intercalate ", "
          (required_columns.filter (fun c => !(df.columns.contains c)))) ∧
      create_grid_map df x_size y_size = .failure (.valueError msg) := by
  have hnot : validate_data df ≠ .ok () := by
    intro hok
    have hcond := (validate_ok_iff df).mp hok
    rcases hbad with ⟨c, hc, hnc⟩ | ⟨r, hr, c, hc, s, hs⟩ |
      ⟨r, hr, q, hq, hrange⟩ | ⟨r, hr, q, hq, hpos⟩
    · have hmem : c ∈ required_columns.filter
          (fun c2 => !(df.columns.contains c2)) :=
        List.mem_filter.mpr ⟨hc, by simpa using hnc⟩
      rw [hcond.1] at hmem
      simp at hmem
    · have hmem := mem_colVals df r c (.text s) hr hs
      simp only [List.mem_cons, List.not_mem_nil, or_false] at hc
      rcases hc with rfl | rfl | rfl
      · have := List.all_eq_true.mp hcond.2.1 (.text s) hmem
        simp [isNumericVal] at this
      · have := List.all_eq_true.mp hcond.2.2.1 (.text s) hmem
        simp [isNumericVal] at this
      · have := List.all_eq_true.mp hcond.2.2.2.1 (.text s) hmem
        simp [isNumericVal] at this
    · have hmem := mem_colVals df r "Form factor (0.4 to 0.6)" (.num q) hr hq
      have := List.all_eq_true.mp hcond.2.2.2.2.1 (.num q) hmem
      simp only [inFormFactorRange, decide_eq_true_eq] at this
      exact hrange this
    · rcases hq with hq | hq
      · have hmem := mem_colVals df r "DBH (cm)" (.num q) hr hq
        have := List.all_eq_true.mp hcond.2.2.2.2.2.1 (.num q) hmem
        simp only [isPositiveVal, decide_eq_true_eq] at this
        linarith
      · have hmem := mem_colVals df r "Tree height (meters)" (.num q) hr hq
        have := List.all_eq_true.mp hcond.2.2.2.2.2.2 (.num q) hmem
        simp only [isPositiveVal, decide_eq_true_eq] at this
        linarith
  obtain ⟨msg, hmsg, hmem2, hmiss⟩ := validate_fail_total df hnot
  refine ⟨msg, hmsg, hmem2, hmiss, ?_⟩
  rw [create_grid_map, hmsg]

/-- C6, witness: the batch whose only row has form factor 0.65 is
rejected with a field-naming message and the run fails. -/
theorem c6_validation_witness :
    ∃ msg, validate_data dfBad = .error (.valueError msg) ∧
      msg ∈ validationMessages dfBad ∧
      (required_columns.filter (fun c => !(dfBad.columns.contains c)) ≠ [] →
        msg = "Missing required columns: " ++ String.intercalate ", "
          (required_columns.filter (fun c => !(dfBad.columns.contains c)))) ∧
      create_grid_map dfBad 39 32 = .failure (.valueError msg) :=
  c6_validation dfBad 39 32 (Or.inr (Or.inr (Or.inl
    ⟨rowBad, by simp [dfBad], 13/20, rfl, by norm_num⟩)))

/-- C9: for a well-formed batch that passes validation, permuting the
records does not change the outcome of the accumulation loop as far as
the grid and count arrays are concerned (per-cell accumulation is
commutative and associative; only warning order follows input order),
and whenever both runs succeed the reduced grids agree cell by cell. -/
theorem c9_perm (df : DataFrame) (l2 : List Row) (x_size y_size : ℕ)
    (hwf : df.WF) (hok : validate_data df = .ok ())
    (hperm : df.rows.Perm l2) :
    ((runLoop x_size y_size df.rows).map
        (fun st => (st.grid, st.count_grid)) =
      (runLoop x_size y_size l2).map
        (fun st => (st.grid, st.count_grid))) ∧
    (∀ st1 st2, runLoop x_size y_size df.rows = .ok st1 →
      runLoop x_size y_size l2 = .ok st2 →
      ∀ i j, reduceGrid st1.grid st1.count_grid i j =
        reduceGrid st2.grid st2.count_grid i j) := by
  have hproc1 : ∀ r ∈ df.rows, ProcRow r := validated_proc df hwf hok
  have hproc2 : ∀ r ∈ l2, ProcRow r :=
    fun r h => hproc1 r (hperm.mem_iff.mpr h)
  have hmain : (runLoop x_size y_size df.rows).map
      (fun st => (st.grid, st.count_grid)) =
      (runLoop x_size y_size l2).map
        (fun st => (st.grid, st.count_grid)) := by
    by_cases hnum : ∃ r ∈ df.rows, ∃ q,
        r.lookup "Cordinates" = some (.num q)
    · obtain ⟨r, hr, q, hq⟩ := hnum
      rw [runLoop, runLoop,
        foldlM_some_num x_size y_size df.rows initState hproc1 ⟨r, hr, q, hq⟩,
        foldlM_some_num x_size y_size l2 initState hproc2
          ⟨r, hperm.mem_iff.mp hr, q, hq⟩]
    · have htext : ∀ r ∈ df.rows, ∃ s,
          r.lookup "Cordinates" = some (.text s) := by
        intro r hr
        obtain ⟨-, -, -, -, v, hv⟩ := hproc1 r hr
        cases v with
        | text s => exact ⟨s, hv⟩
        | num q => exact absurd ⟨r, hr, q, hv⟩ hnum
      have htext2 : ∀ r ∈ l2, ∃ s,
          r.lookup "Cordinates" = some (.text s) :=
        fun r h => htext r (hperm.mem_iff.mpr h)
      obtain ⟨st1, h1, hgc1⟩ :=
        foldlM_all_text x_size y_size df.rows initState hproc1 htext
      obtain ⟨st2, h2, hgc2⟩ :=
        foldlM_all_text x_size y_size l2 initState hproc2 htext2
      rw [runLoop, runLoop, h1, h2]
      simp only [Except.map]
      rw [hgc1, hgc2,
        foldl_eq_of_perm (gcStep x_size y_size)
          (gcStep_comm x_size y_size) hperm]
  refine ⟨hmain, ?_⟩
  intro st1 st2 h1 h2 i j
  rw [runLoop] at h1 h2
  rw [runLoop, runLoop, h1, h2] at hmain
  simp only [Except.map, Except.ok.injEq, Prod.mk.injEq] at hmain
  rw [hmain.1, hmain.2]

/-- C9, witness: swapping the two rows of a valid batch does not change
the grid-and-count outcome of the loop. -/
theorem c9_perm_witness :
    (runLoop 39 32 dfW.rows).map (fun st => (st.grid, st.count_grid)) =
      (runLoop 39 32 [rowW2, rowC2]).map
        (fun st => (st.grid, st.count_grid)) :=
  (c9_perm dfW [rowW2, rowC2] 39 32
    (by intro r hr
        simp only [dfW, List.mem_cons, List.not_mem_nil, or_false] at hr
        rcases hr with rfl | rfl <;> rfl)
    (by simp [validate_data, colVals, rowC2, rowW2, dfW, required_columns,
          isNumericVal, inFormFactorRange, isPositiveVal, List.lookup]
        norm_num)
    (List.Perm.swap rowW2 rowC2 [])).1

end TimberPy
